import Mathlib

/-!
Verification model of the xilinx-power-monitor (`xlnpwmon`) engine.

The repository ships `setup.py` (which compiles `src/xlnpwmon.c` and
`bindings/python/xlnpwmon_pybind.cpp`), a Python test suite and an example,
but the C core and the pybind glue themselves are not present; the
definitions below therefore model the engine from the specification
(`spec.md`), with readings embedded as exact rationals.
-/

/-- Modelled from the spec: the error taxonomy of §4.4/§7 (the C core's
error enum is in the missing `src/xlnpwmon.c`). -/
inductive ErrorCode
  | SUCCESS
  | ERROR_INIT_FAILED
  | ERROR_INVALID_FREQUENCY
  | ERROR_ALREADY_SAMPLING
  | ERROR_NOT_SAMPLING
  | ERROR_SENSOR_READ
deriving DecidableEq

/-- Modelled from the spec: StatAccumulator (§4.2, §3) — streaming
min/max/sum/count aggregator for one metric stream. -/
structure StatAccumulator where
  min : ℚ
  max : ℚ
  sum : ℚ
  count : ℕ
deriving DecidableEq

/-- Modelled from the spec: `reset()` zeroes all fields (§4.2). -/
def StatAccumulator.reset : StatAccumulator := ⟨0, 0, 0, 0⟩

/-- Modelled from the spec: `observe(x)` updates `min = min(min, x)` (or sets
it on the first sample), `max` symmetrically, `sum += x`, `count += 1` (§4.2). -/
def StatAccumulator.observe (s : StatAccumulator) (x : ℚ) : StatAccumulator :=
  if s.count = 0 then
    { min := x, max := x, sum := s.sum + x, count := s.count + 1 }
  else
    { min := Min.min s.min x, max := Max.max s.max x, sum := s.sum + x, count := s.count + 1 }

/-- Snapshot record returned for one accumulator: `{min, max, avg, total, count}` (§4.3). -/
structure StatSnapshot where
  min : ℚ
  max : ℚ
  avg : ℚ
  total : ℚ
  count : ℕ
deriving DecidableEq

/-- Modelled from the spec: `snapshot()` copies the fields; `avg = sum / count`
when `count > 0`, else 0 (§3, §4.2). -/
def StatAccumulator.snapshot (s : StatAccumulator) : StatSnapshot :=
  { min := s.min, max := s.max,
    avg := if s.count = 0 then 0 else s.sum / (s.count : ℚ),
    total := s.sum, count := s.count }

/-- Latest (voltage, current, power) triple of one sensor (§3). -/
structure Reading where
  voltage : ℚ
  current : ℚ
  power : ℚ
deriving DecidableEq

/-- One instantaneous backend read result (§6): values plus an online flag;
`online = false` models a read failure for this tick. -/
structure SensorReading where
  voltage : ℚ
  current : ℚ
  power : ℚ
  online : Bool
deriving DecidableEq

/-- Modelled from the spec: per-sensor record (§3): identity, thresholds,
latest reading, derived status, and three StatAccumulators. Sensor `type`
and `status` are the stable integer ordinals of §6/§3. -/
structure Sensor where
  name : String
  type : ℕ
  warning_threshold : ℚ
  critical_threshold : ℚ
  online : Bool
  status : ℕ
  latest : Reading
  vStats : StatAccumulator
  cStats : StatAccumulator
  pStats : StatAccumulator
deriving DecidableEq

/-- Modelled from the spec: status classification {NORMAL=0, WARNING=1,
CRITICAL=2, OFFLINE=3} from the latest power reading vs thresholds and
`online` (§3). -/
def statusOf (online : Bool) (power warn crit : ℚ) : ℕ :=
  if online = false then 3
  else if crit ≤ power then 2
  else if warn ≤ power then 1
  else 0

/-- Modelled from the spec: one tick's effect on one sensor (§4.1): a
successful read updates `latest`/`online`/`status` and feeds each metric into
its accumulator; a failed read only marks the sensor offline. -/
def Sensor.applyReading (s : Sensor) (r : SensorReading) : Sensor :=
  if r.online then
    { s with latest := ⟨r.voltage, r.current, r.power⟩,
             online := true,
             status := statusOf true r.power s.warning_threshold s.critical_threshold,
             vStats := s.vStats.observe r.voltage,
             cStats := s.cStats.observe r.current,
             pStats := s.pStats.observe r.power }
  else
    { s with online := false, status := 3 }

/-- Modelled from the spec: MonitorState (§3) — the monitor owns the
configured frequency, the lifecycle flag, the (construction-fixed) ordered
sensor list, and the three aggregate "total" accumulators. -/
structure PowerMonitor where
  sampling_frequency_hz : ℚ
  is_sampling : Bool
  sensors : List Sensor
  totalV : StatAccumulator
  totalC : StatAccumulator
  totalP : StatAccumulator
deriving DecidableEq

/-- Modelled from the spec: `set_sampling_frequency(hz)` — permitted in either
state, fails with the invalid-frequency error if `hz ≤ 0` (§4.1). -/
def set_sampling_frequency (m : PowerMonitor) (hz : ℚ) : Except ErrorCode PowerMonitor :=
  if hz ≤ 0 then Except.error ErrorCode.ERROR_INVALID_FREQUENCY
  else Except.ok { m with sampling_frequency_hz := hz }

/-- Modelled from the spec: `get_sampling_frequency()` — pure read (§4.1). -/
def get_sampling_frequency (m : PowerMonitor) : ℚ := m.sampling_frequency_hz

/-- Modelled from the spec: `start_sampling()` — `IDLE → SAMPLING`, fails with
the already-sampling error if already sampling (§4.1). -/
def start_sampling (m : PowerMonitor) : Except ErrorCode PowerMonitor :=
  if m.is_sampling then Except.error ErrorCode.ERROR_ALREADY_SAMPLING
  else Except.ok { m with is_sampling := true }

/-- Modelled from the spec: `stop_sampling()` — `SAMPLING → IDLE`, fails with
the not-sampling error if already idle (§4.1). -/
def stop_sampling (m : PowerMonitor) : Except ErrorCode PowerMonitor :=
  if m.is_sampling then Except.ok { m with is_sampling := false }
  else Except.error ErrorCode.ERROR_NOT_SAMPLING

/-- Modelled from the spec: a sensor's contribution to the per-tick aggregate:
its reading when online, zero when the read failed (§4.1, a failed read must
not abort the tick). -/
def tickContribution (r : SensorReading) : Reading :=
  if r.online then ⟨r.voltage, r.current, r.power⟩ else ⟨0, 0, 0⟩

/-- Modelled from the spec: one tick (§4.1): read all sensors (`read` stands
for the SensorBackend, one result per sensor handle), update every sensor's
latest/online/status/accumulators, then feed the per-tick sums into the
"total" accumulators. -/
def tick (m : PowerMonitor) (read : Sensor → SensorReading) : PowerMonitor :=
  { m with
    sensors := m.sensors.map (fun s => s.applyReading (read s)),
    totalV := m.totalV.observe ((m.sensors.map (fun s => (tickContribution (read s)).voltage)).sum),
    totalC := m.totalC.observe ((m.sensors.map (fun s => (tickContribution (read s)).current)).sum),
    totalP := m.totalP.observe ((m.sensors.map (fun s => (tickContribution (read s)).power)).sum) }

/-- Reset the three accumulators of one sensor; everything else untouched. -/
def Sensor.resetStats (s : Sensor) : Sensor :=
  { s with vStats := StatAccumulator.reset,
           cStats := StatAccumulator.reset,
           pStats := StatAccumulator.reset }

/-- Modelled from the spec: `reset_statistics()` resets all StatAccumulators
(total and per-sensor); does not alter `latest`, thresholds or `is_sampling` (§4.3, §3). -/
def reset_statistics (m : PowerMonitor) : PowerMonitor :=
  { m with sensors := m.sensors.map Sensor.resetStats,
           totalV := StatAccumulator.reset,
           totalC := StatAccumulator.reset,
           totalP := StatAccumulator.reset }

/-- The `total` part of `get_latest_data()`: `{voltage, current, power, online, status}` (§4.3). -/
structure TotalData where
  voltage : ℚ
  current : ℚ
  power : ℚ
  online : Bool
  status : ℕ
deriving DecidableEq

/-- One per-sensor entry of `get_latest_data().sensors` (§4.3, test shape). -/
structure SensorData where
  name : String
  type : ℕ
  voltage : ℚ
  current : ℚ
  power : ℚ
  online : Bool
  status : ℕ
  warning_threshold : ℚ
  critical_threshold : ℚ
deriving DecidableEq

/-- `get_latest_data()` result: `{total, sensors, sensor_count}` (§4.3). -/
structure LatestData where
  total : TotalData
  sensors : List SensorData
  sensor_count : ℕ
deriving DecidableEq

/-- The caller-visible copy of one sensor's latest state. -/
def Sensor.toData (s : Sensor) : SensorData :=
  { name := s.name, type := s.type,
    voltage := s.latest.voltage, current := s.latest.current, power := s.latest.power,
    online := s.online, status := s.status,
    warning_threshold := s.warning_threshold, critical_threshold := s.critical_threshold }

/-- Modelled from the spec: `get_latest_data()` (§4.3) — a consistent snapshot:
per-sensor latest entries, the aggregate of the latest readings as `total`,
and `sensor_count`. -/
def get_latest_data (m : PowerMonitor) : LatestData :=
  { total := { voltage := (m.sensors.map (fun s => s.latest.voltage)).sum,
               current := (m.sensors.map (fun s => s.latest.current)).sum,
               power := (m.sensors.map (fun s => s.latest.power)).sum,
               online := m.sensors.all Sensor.online,
               status := (m.sensors.map Sensor.status).foldl Nat.max 0 },
    sensors := m.sensors.map Sensor.toData,
    sensor_count := m.sensors.length }

/-- Statistics of one sensor: a snapshot per metric (§4.3). -/
structure SensorStats where
  name : String
  voltage : StatSnapshot
  current : StatSnapshot
  power : StatSnapshot
deriving DecidableEq

/-- The `total` part of `get_statistics()` (§4.3). -/
structure TotalStats where
  voltage : StatSnapshot
  current : StatSnapshot
  power : StatSnapshot
deriving DecidableEq

/-- `get_statistics()` result: `{total, sensors, sensor_count}` (§4.3). -/
structure Statistics where
  total : TotalStats
  sensors : List SensorStats
  sensor_count : ℕ
deriving DecidableEq

/-- The caller-visible statistics of one sensor. -/
def Sensor.toStats (s : Sensor) : SensorStats :=
  { name := s.name, voltage := s.vStats.snapshot,
    current := s.cStats.snapshot, power := s.pStats.snapshot }

/-- Modelled from the spec: `get_statistics()` (§4.3) — snapshot copies of
every accumulator, total and per-sensor. -/
def get_statistics (m : PowerMonitor) : Statistics :=
  { total := { voltage := m.totalV.snapshot,
               current := m.totalC.snapshot,
               power := m.totalP.snapshot },
    sensors := m.sensors.map Sensor.toStats,
    sensor_count := m.sensors.length }

/-- Modelled from the spec: `get_sensor_count()` — pure read of the discovered
sensor count (§4.3). -/
def get_sensor_count (m : PowerMonitor) : ℕ := m.sensors.length

/-- Modelled from the spec: `get_sensor_names()` (§4.3) — returns the names in
discovery order and emits a deprecation signal to the caller; the Boolean in
the pair records that the deprecation signal was emitted. -/
def get_sensor_names (m : PowerMonitor) : List String × Bool :=
  (m.sensors.map Sensor.name, true)

/-- Modelled from the spec: `is_sampling()` — pure read of the state flag (§4.1). -/
def is_sampling (m : PowerMonitor) : Bool := m.is_sampling

/-- One caller-visible mutating operation on the monitor, the tick included. -/
inductive MonitorOp
  | setFreq (hz : ℚ)
  | startSampling
  | stopSampling
  | resetStats
  | tickOp (read : Sensor → SensorReading)

/-- State after one operation; a failed call leaves the state unchanged
(the spec's error cases mutate nothing). -/
def applyOp (m : PowerMonitor) : MonitorOp → PowerMonitor
  | MonitorOp.setFreq hz =>
      match set_sampling_frequency m hz with
      | Except.ok m' => m'
      | Except.error _ => m
  | MonitorOp.startSampling =>
      match start_sampling m with
      | Except.ok m' => m'
      | Except.error _ => m
  | MonitorOp.stopSampling =>
      match stop_sampling m with
      | Except.ok m' => m'
      | Except.error _ => m
  | MonitorOp.resetStats => reset_statistics m
  | MonitorOp.tickOp read => tick m read

/-- State after a sequence of operations. -/
def runOps (m : PowerMonitor) (ops : List MonitorOp) : PowerMonitor :=
  ops.foldl applyOp m

/-- Accumulator state after observing a sample sequence from a fresh reset. -/
def runObserve (xs : List ℚ) : StatAccumulator :=
  xs.foldl StatAccumulator.observe StatAccumulator.reset

/-- Modelled from the spec: the exception classes a Python caller can see from
the pybind layer (the glue in `bindings/python/xlnpwmon_pybind.cpp` is not in
the repository snapshot); the test suite pins `RuntimeError` for misuse and
`DeprecationWarning` for the deprecated accessor. -/
inductive PyExcType
  | RuntimeError
  | ValueError
  | TypeError
  | DeprecationWarning
deriving DecidableEq

/-- Outcome of a Python-level call: a value, or a raised exception. -/
inductive PyResult (α : Type)
  | ok (value : α)
  | raised (exc : PyExcType)

/-- Modelled from the spec: the binding translates every core error code into
one caller-idiomatic exception (§4.4); the tests pin that class to
`RuntimeError` for all synchronous misuse failures. -/
def raiseFor (_ : ErrorCode) : PyExcType := PyExcType.RuntimeError

/-- Lift a core result to a Python-level outcome. -/
def pyWrap {α : Type} : Except ErrorCode α → PyResult α
  | Except.ok a => PyResult.ok a
  | Except.error e => PyResult.raised (raiseFor e)

/-- Python-level `set_sampling_frequency`. -/
def py_set_sampling_frequency (m : PowerMonitor) (hz : ℚ) : PyResult PowerMonitor :=
  pyWrap (set_sampling_frequency m hz)

/-- Python-level `start_sampling`. -/
def py_start_sampling (m : PowerMonitor) : PyResult PowerMonitor :=
  pyWrap (start_sampling m)

/-- Python-level `stop_sampling`. -/
def py_stop_sampling (m : PowerMonitor) : PyResult PowerMonitor :=
  pyWrap (stop_sampling m)

/-- A concrete discovered sensor, used to instantiate the theorems. -/
def testSensor : Sensor :=
  { name := "VCCINT", type := 1, warning_threshold := 10, critical_threshold := 20,
    online := true, status := 0, latest := ⟨0, 0, 0⟩,
    vStats := StatAccumulator.reset, cStats := StatAccumulator.reset,
    pStats := StatAccumulator.reset }

/-- A freshly constructed monitor with one discovered sensor. -/
def testMonitor : PowerMonitor :=
  { sampling_frequency_hz := 1, is_sampling := false, sensors := [testSensor],
    totalV := StatAccumulator.reset, totalC := StatAccumulator.reset,
    totalP := StatAccumulator.reset }

/-- The test monitor after a successful `start_sampling`. -/
def startedMonitor : PowerMonitor := { testMonitor with is_sampling := true }

/-- Whether one reported statistics snapshot has a zero sample count. -/
def StatSnapshot.countZero (s : StatSnapshot) : Bool := s.count == 0

/-- Whether all three metric snapshots of one sensor have zero counts. -/
def SensorStats.countsZero (s : SensorStats) : Bool :=
  s.voltage.countZero && s.current.countZero && s.power.countZero

/-- Whether every accumulator reported by `get_statistics` — the three totals
and every per-sensor metric — has a zero sample count. -/
def Statistics.allCountsZero (st : Statistics) : Bool :=
  st.total.voltage.countZero && st.total.current.countZero && st.total.power.countZero &&
    st.sensors.all SensorStats.countsZero

/-- The arithmetic invariant an accumulator maintains: the sum is bracketed by
`count * min` and `count * max` (trivial at count 0, where the sum is forced
to 0). -/
def StatAccumulator.Inv (s : StatAccumulator) : Prop :=
  (s.count : ℚ) * s.min ≤ s.sum ∧ s.sum ≤ (s.count : ℚ) * s.max

/-! ## Theorems -/

/-- Claim C1: for every f > 0, `set_sampling_frequency(f)` succeeds and a
subsequent `get_sampling_frequency()` returns exactly f. -/
theorem set_then_get_frequency (m : PowerMonitor) (f : ℚ) (hf : 0 < f) :
    ∃ m', set_sampling_frequency m f = Except.ok m' ∧ get_sampling_frequency m' = f := by
  refine ⟨{ m with sampling_frequency_hz := f }, ?_, rfl⟩
  unfold set_sampling_frequency
  rw [if_neg (not_le.mpr hf)]

/-- Witness for C1: the concrete monitor with frequency 10. -/
theorem set_then_get_frequency_witness :
    ∃ m', set_sampling_frequency testMonitor 10 = Except.ok m' ∧
      get_sampling_frequency m' = 10 :=
  set_then_get_frequency testMonitor 10 (by norm_num)

/-- Claim C2: for every f ≤ 0 (including 0), `set_sampling_frequency(f)` fails
with the invalid-frequency error in either lifecycle state, and the monitor's
state (frequency, `is_sampling` and everything else) is unchanged. -/
theorem set_frequency_invalid (m : PowerMonitor) (f : ℚ) (hf : f ≤ 0) :
    set_sampling_frequency m f = Except.error ErrorCode.ERROR_INVALID_FREQUENCY ∧
    applyOp m (MonitorOp.setFreq f) = m := by
  constructor
  · unfold set_sampling_frequency
    rw [if_pos hf]
  · simp [applyOp, set_sampling_frequency, if_pos hf]

/-- Witness for C2: frequency 0 on the concrete monitor. -/
theorem set_frequency_invalid_witness :
    set_sampling_frequency testMonitor 0 = Except.error ErrorCode.ERROR_INVALID_FREQUENCY ∧
    applyOp testMonitor (MonitorOp.setFreq 0) = testMonitor :=
  set_frequency_invalid testMonitor 0 (by norm_num)

/-- Claim C3: a second `start_sampling()` while already sampling fails with the
already-sampling error, and `is_sampling()` is true both before and after the
failed call (the failed call changes nothing). -/
theorem start_sampling_twice (m m' : PowerMonitor) (h : start_sampling m = Except.ok m') :
    m'.is_sampling = true ∧
    start_sampling m' = Except.error ErrorCode.ERROR_ALREADY_SAMPLING ∧
    applyOp m' MonitorOp.startSampling = m' := by
  unfold start_sampling at h
  by_cases hs : m.is_sampling
  · rw [if_pos hs] at h
    exact absurd h (by simp)
  · rw [if_neg hs] at h
    obtain rfl : ({ m with is_sampling := true } : PowerMonitor) = m' := by
      exact Except.ok.inj h
    refine ⟨rfl, ?_, ?_⟩
    · unfold start_sampling
      rw [if_pos rfl]
    · simp [applyOp, start_sampling]

/-- Witness for C3: starting the concrete monitor, then starting again. -/
theorem start_sampling_twice_witness :
    startedMonitor.is_sampling = true ∧
    start_sampling startedMonitor = Except.error ErrorCode.ERROR_ALREADY_SAMPLING ∧
    applyOp startedMonitor MonitorOp.startSampling = startedMonitor :=
  start_sampling_twice testMonitor startedMonitor rfl

/-- Claim C4: `stop_sampling()` while idle fails with the not-sampling error,
and `is_sampling()` is false both before and after the failed call. -/
theorem stop_sampling_idle (m : PowerMonitor) (h : m.is_sampling = false) :
    stop_sampling m = Except.error ErrorCode.ERROR_NOT_SAMPLING ∧
    applyOp m MonitorOp.stopSampling = m ∧
    (applyOp m MonitorOp.stopSampling).is_sampling = false := by
  have h1 : stop_sampling m = Except.error ErrorCode.ERROR_NOT_SAMPLING := by
    unfold stop_sampling
    rw [h]
    simp
  have h2 : applyOp m MonitorOp.stopSampling = m := by
    simp [applyOp, h1]
  exact ⟨h1, h2, by rw [h2, h]⟩

/-- Witness for C4: stopping the freshly constructed (idle) concrete monitor. -/
theorem stop_sampling_idle_witness :
    stop_sampling testMonitor = Except.error ErrorCode.ERROR_NOT_SAMPLING ∧
    applyOp testMonitor MonitorOp.stopSampling = testMonitor ∧
    (applyOp testMonitor MonitorOp.stopSampling).is_sampling = false :=
  stop_sampling_idle testMonitor rfl

/-- Claim C10: in the Python binding every synchronous misuse failure —
non-positive frequency, start while sampling, stop while idle — surfaces as a
raised `RuntimeError`, the same single exception class, never an error code. -/
theorem misuse_raises_runtime_error (m : PowerMonitor) (hz : ℚ) :
    (hz ≤ 0 → py_set_sampling_frequency m hz = PyResult.raised PyExcType.RuntimeError) ∧
    (m.is_sampling = true → py_start_sampling m = PyResult.raised PyExcType.RuntimeError) ∧
    (m.is_sampling = false → py_stop_sampling m = PyResult.raised PyExcType.RuntimeError) := by
  refine ⟨fun h1 => ?_, fun h2 => ?_, fun h3 => ?_⟩
  · simp [py_set_sampling_frequency, set_sampling_frequency, if_pos h1, pyWrap, raiseFor]
  · simp [py_start_sampling, start_sampling, h2, pyWrap, raiseFor]
  · simp [py_stop_sampling, stop_sampling, h3, pyWrap, raiseFor]

/-- Witness for C10: all three misuses raise `RuntimeError` on the concrete
monitors. -/
theorem misuse_raises_runtime_error_witness :
    py_set_sampling_frequency testMonitor 0 = PyResult.raised PyExcType.RuntimeError ∧
    py_start_sampling startedMonitor = PyResult.raised PyExcType.RuntimeError ∧
    py_stop_sampling testMonitor = PyResult.raised PyExcType.RuntimeError :=
  ⟨(misuse_raises_runtime_error testMonitor 0).1 (by norm_num),
   (misuse_raises_runtime_error startedMonitor 0).2.1 rfl,
   (misuse_raises_runtime_error testMonitor 0).2.2 rfl⟩

/-- Claim C5: after `reset_statistics()`, every reported accumulator (totals
and per-sensor) has `count = 0`, regardless of prior history; and the call
leaves the latest readings, thresholds, lifecycle flag and frequency exactly
as before. -/
theorem reset_statistics_spec (m : PowerMonitor) :
    (get_statistics (reset_statistics m)).allCountsZero = true ∧
    get_latest_data (reset_statistics m) = get_latest_data m ∧
    (reset_statistics m).is_sampling = m.is_sampling ∧
    (reset_statistics m).sampling_frequency_hz = m.sampling_frequency_hz := by
  refine ⟨?_, ?_, rfl, rfl⟩
  · unfold Statistics.allCountsZero get_statistics reset_statistics
    rw [Bool.and_eq_true, Bool.and_eq_true, Bool.and_eq_true, List.all_eq_true]
    refine ⟨⟨⟨rfl, rfl⟩, rfl⟩, fun s hs => ?_⟩
    rw [List.map_map, List.mem_map] at hs
    obtain ⟨t, ht, rfl⟩ := hs
    rfl
  · unfold get_latest_data reset_statistics
    simp only [List.map_map, List.all_map, List.length_map]
    rfl

/-- Claim C6: `observe(x)` sets `min`/`max` to x on the first sample and to
`min(min, x)`/`max(max, x)` afterwards, adds x to `sum`, increments `count`;
the reported `avg` is `sum / count` when `count > 0` and 0 when `count = 0`. -/
theorem observe_snapshot_spec (s : StatAccumulator) (x : ℚ) :
    (s.observe x).sum = s.sum + x ∧
    (s.observe x).count = s.count + 1 ∧
    (s.count = 0 → (s.observe x).min = x ∧ (s.observe x).max = x) ∧
    (s.count ≠ 0 → (s.observe x).min = Min.min s.min x ∧ (s.observe x).max = Max.max s.max x) ∧
    (0 < s.count → s.snapshot.avg = s.sum / (s.count : ℚ)) ∧
    (s.count = 0 → s.snapshot.avg = 0) := by
  unfold StatAccumulator.observe StatAccumulator.snapshot
  by_cases h : s.count = 0
  · simp [h]
  · simp [h]

/-- Witness for C6: concrete first and second observations and their reported
averages. -/
theorem observe_snapshot_spec_witness :
    (StatAccumulator.reset.observe 3).min = 3 ∧
    ((StatAccumulator.reset.observe 3).observe 5).max
      = Max.max (StatAccumulator.reset.observe 3).max 5 ∧
    (StatAccumulator.reset.observe 3).snapshot.avg
      = (StatAccumulator.reset.observe 3).sum / (((StatAccumulator.reset.observe 3).count : ℕ) : ℚ) ∧
    StatAccumulator.reset.snapshot.avg = 0 :=
  ⟨((observe_snapshot_spec StatAccumulator.reset 3).2.2.1 rfl).1,
   ((observe_snapshot_spec (StatAccumulator.reset.observe 3) 5).2.2.2.1 (by decide)).2,
   (observe_snapshot_spec (StatAccumulator.reset.observe 3) 5).2.2.2.2.1 (by decide),
   (observe_snapshot_spec StatAccumulator.reset 3).2.2.2.2.2 rfl⟩

/-- Helper: every monitor operation preserves the discovered sensor count. -/
theorem applyOp_sensors_length (m : PowerMonitor) (op : MonitorOp) :
    (applyOp m op).sensors.length = m.sensors.length := by
  cases op with
  | setFreq hz =>
      by_cases h : hz ≤ 0 <;> simp [applyOp, set_sampling_frequency, h]
  | startSampling =>
      by_cases h : m.is_sampling <;> simp [applyOp, start_sampling, h]
  | stopSampling =>
      by_cases h : m.is_sampling <;> simp [applyOp, stop_sampling, h]
  | resetStats => simp [applyOp, reset_statistics]
  | tickOp read => simp [applyOp, tick]

/-- Claim C8: `get_sensor_count()` equals the length of
`get_latest_data().sensors`, equals its `sensor_count` field, and the value is
fixed for the monitor's whole lifetime (any operation sequence). -/
theorem sensor_count_fixed (m : PowerMonitor) (ops : List MonitorOp) :
    get_sensor_count m = (get_latest_data m).sensors.length ∧
    (get_latest_data m).sensor_count = (get_latest_data m).sensors.length ∧
    get_sensor_count (runOps m ops) = get_sensor_count m := by
  refine ⟨by simp [get_sensor_count, get_latest_data], by simp [get_latest_data], ?_⟩
  induction ops generalizing m with
  | nil => rfl
  | cons op rest ih =>
      have hstep : runOps m (op :: rest) = runOps (applyOp m op) rest := rfl
      rw [hstep, ih (applyOp m op)]
      simp [get_sensor_count, applyOp_sensors_length]

/-- Claim C9: `get_sensor_names()` returns exactly the names, in order, of the
`name` fields of `get_latest_data().sensors`, and emits the deprecation signal;
the signal does not change the returned names. -/
theorem get_sensor_names_spec (m : PowerMonitor) :
    (get_sensor_names m).1 = (get_latest_data m).sensors.map SensorData.name ∧
    (get_sensor_names m).2 = true := by
  refine ⟨?_, rfl⟩
  unfold get_sensor_names get_latest_data
  simp only [List.map_map]
  rfl

/-- Counterexample to claim C7 as stated: observing a negative sample (legal —
the spec lets the backend report negative current for discharge, passed
through) strictly decreases `sum`, so `sum` is not monotonically
non-decreasing across observe calls. -/
theorem sum_not_monotone_counterexample :
    ((StatAccumulator.reset.observe 5).observe (-1)).sum
      < (StatAccumulator.reset.observe 5).sum := by
  norm_num [StatAccumulator.observe, StatAccumulator.reset]

/-- Helper: the fresh accumulator satisfies the bracketing invariant. -/
theorem Inv_reset : StatAccumulator.reset.Inv := by
  constructor <;> simp [StatAccumulator.reset, StatAccumulator.Inv]

/-- Helper: `observe` preserves the bracketing invariant. -/
theorem Inv_observe (s : StatAccumulator) (x : ℚ) (h : s.Inv) : (s.observe x).Inv := by
  obtain ⟨h1, h2⟩ := h
  unfold StatAccumulator.Inv at *
  unfold StatAccumulator.observe
  by_cases hc : s.count = 0
  · have hsum : s.sum = 0 := by
      rw [hc] at h1 h2
      push_cast at h1 h2
      linarith
    simp [hc, hsum]
  · simp only [hc, if_false]
    push_cast
    constructor
    · calc ((s.count : ℚ) + 1) * Min.min s.min x
            = (s.count : ℚ) * Min.min s.min x + Min.min s.min x := by ring
        _ ≤ (s.count : ℚ) * s.min + x :=
            add_le_add (mul_le_mul_of_nonneg_left (min_le_left _ _) (Nat.cast_nonneg _))
              (min_le_right _ _)
        _ ≤ s.sum + x := add_le_add_right h1 x
    · calc s.sum + x
            ≤ (s.count : ℚ) * s.max + x := add_le_add_right h2 x
        _ ≤ (s.count : ℚ) * Max.max s.max x + Max.max s.max x :=
            add_le_add (mul_le_mul_of_nonneg_left (le_max_left _ _) (Nat.cast_nonneg _))
              (le_max_right _ _)
        _ = ((s.count : ℚ) + 1) * Max.max s.max x := by ring

/-- Helper: folding `observe` over any sample list preserves the invariant. -/
theorem foldl_observe_inv (xs : List ℚ) (s : StatAccumulator) (h : s.Inv) :
    (xs.foldl StatAccumulator.observe s).Inv := by
  induction xs generalizing s with
  | nil => exact h
  | cons x rest ih => exact ih _ (Inv_observe s x h)

/-- Helper: `observe` increments the count by exactly one. -/
theorem observe_count (s : StatAccumulator) (x : ℚ) :
    (s.observe x).count = s.count + 1 := by
  unfold StatAccumulator.observe
  by_cases hc : s.count = 0 <;> simp [hc]

/-- Helper: after folding a sample list, the count grew by the list length. -/
theorem foldl_observe_count (xs : List ℚ) (s : StatAccumulator) :
    (xs.foldl StatAccumulator.observe s).count = s.count + xs.length := by
  induction xs generalizing s with
  | nil => simp
  | cons x rest ih =>
      rw [List.foldl_cons, ih, observe_count]
      simp only [List.length_cons]
      omega

/-- Claim C7 (amended): after any sample sequence from a fresh accumulator,
`min ≤ avg ≤ max` holds once `count ≥ 1`; `count` is monotonically
non-decreasing across observe calls, and `sum` is non-decreasing for
non-negative samples (a negative sample — legal passthrough — decreases it). -/
theorem stat_accumulator_invariants (xs : List ℚ) (s : StatAccumulator) (x : ℚ)
    (hxs : xs ≠ []) :
    ((runObserve xs).min ≤ (runObserve xs).snapshot.avg ∧
      (runObserve xs).snapshot.avg ≤ (runObserve xs).max) ∧
    s.count ≤ (s.observe x).count ∧
    (0 ≤ x → s.sum ≤ (s.observe x).sum) := by
  have hcount : (runObserve xs).count = xs.length := by
    have h := foldl_observe_count xs StatAccumulator.reset
    simpa [runObserve, StatAccumulator.reset] using h
  have hne : (runObserve xs).count ≠ 0 := by
    rw [hcount]
    have hlen := List.length_pos.mpr hxs
    omega
  have hpos : (0 : ℚ) < ((runObserve xs).count : ℚ) := by
    exact_mod_cast Nat.pos_of_ne_zero hne
  have hinv : (runObserve xs).Inv :=
    foldl_observe_inv xs StatAccumulator.reset Inv_reset
  have havg : (runObserve xs).snapshot.avg
      = (runObserve xs).sum / ((runObserve xs).count : ℚ) := by
    simp [StatAccumulator.snapshot, hne]
  refine ⟨⟨?_, ?_⟩, ?_, ?_⟩
  · rw [havg, le_div_iff₀ hpos, mul_comm]
    exact hinv.1
  · rw [havg, div_le_iff₀ hpos, mul_comm]
    exact hinv.2
  · rw [observe_count]
    omega
  · intro hx
    have hsum : (s.observe x).sum = s.sum + x := by
      unfold StatAccumulator.observe
      by_cases hc : s.count = 0 <;> simp [hc]
    rw [hsum]
    linarith

/-- Witness for C7 (amended): the sample sequence [5, 1] on a fresh
accumulator, and one non-negative observation. -/
theorem stat_accumulator_invariants_witness :
    ((runObserve [5, 1]).min ≤ (runObserve [5, 1]).snapshot.avg ∧
      (runObserve [5, 1]).snapshot.avg ≤ (runObserve [5, 1]).max) ∧
    StatAccumulator.reset.count ≤ (StatAccumulator.reset.observe 2).count ∧
    (0 ≤ (2 : ℚ) → StatAccumulator.reset.sum ≤ (StatAccumulator.reset.observe 2).sum) :=
  stat_accumulator_invariants [5, 1] StatAccumulator.reset 2 (by simp)
